import Mathlib

/-!
Shallow embedding of the SearchBar widget
(source file src/components/SearchBar.tsx of pokemonle/pokemonle).

The widget state consists of the search text, the selected key and the
snapshot of candidate name records.  Each event handler is embedded as a
pure function from the state (plus the values of the data hooks it reads)
to a new state together with the list of external notification callbacks
it invokes, in invocation order.  The call to Math.random() is modelled
as a rational parameter r with 0 <= r < 1, and Math.floor as Nat.floor.
A JavaScript out-of-bounds array read followed by .toString() would throw,
so handleRandomPick returns an Option, with none modelling that failure.
-/

/-- One catalog name record as delivered by the usePokemonName hook. -/
structure PokemonName where
  pokemon_species_id : Nat
  name : String
deriving DecidableEq

/-- An invocation of one of the external notification callbacks. -/
inductive Notif where
  | onChange (value : String)
  | onInputChange (value : String)
deriving DecidableEq

/-- The internal widget state: search text, selected key,
and the local snapshot of candidate records. -/
structure SearchBarState where
  search : String
  selectedKey : String
  localItems : List PokemonName
deriving DecidableEq

/-- The imperative reset exposed through the ref handle: clears the search
text and the selected key, invoking no callbacks. -/
def resetSearchBar (s : SearchBarState) : SearchBarState × List Notif :=
  ({ s with search := "", selectedKey := "" }, [])

/-- Effect of the controlled value prop reconciliation: selectedKey is
overwritten with the prop (empty when absent). -/
def syncValueProp (value : Option String) (s : SearchBarState) : SearchBarState :=
  { s with selectedKey := value.getD "" }

/-- Effect of the controlled inputValue prop reconciliation: search is
overwritten with the prop (empty when absent). -/
def syncInputValueProp (inputValue : Option String) (s : SearchBarState) : SearchBarState :=
  { s with search := inputValue.getD "" }

/-- Effect of fresh hook data arriving: the candidate snapshot is replaced
wholesale when the data is present, otherwise nothing changes. -/
def syncLocalItems (data : Option (List PokemonName)) (s : SearchBarState) : SearchBarState :=
  match data with
  | some d => { s with localItems := d }
  | none => s

/-- The index drawn by handleRandomPick: Math.floor of Math.random() times
the catalog length, with Math.random() modelled as the rational r. -/
def randomIndex (r : ℚ) (n : Nat) : Nat := ⌊r * (n : ℚ)⌋₊

/-- The random-pick handler.  Reads the full id catalog (PokemonIDs hook)
and the filtered name data (data hook).  On a non-empty catalog it draws
an index, notifies onChange with the drawn id, and resolves the display
name against the filtered data, updating search and notifying
onInputChange only when the lookup succeeds.  It never writes
selectedKey.  none models the crash of an out-of-bounds read. -/
def handleRandomPick (r : ℚ) (PokemonIDs : Option (List Nat))
    (data : Option (List PokemonName)) (s : SearchBarState) :
    Option (SearchBarState × List Notif) :=
  match PokemonIDs with
  | none => some (s, [])
  | some ids =>
    if 0 < ids.length then
      match ids[randomIndex r ids.length]? with
      | none => none
      | some randomPokemon =>
        let base := [Notif.onChange (toString randomPokemon)]
        match data with
        | none => some (s, base)
        | some d =>
          match d.find? (fun item => item.pokemon_species_id == randomPokemon) with
          | some pokemonItem =>
              some ({ s with search := pokemonItem.name },
                    base ++ [Notif.onInputChange pokemonItem.name])
          | none => some (s, base)
    else some (s, [])

/-- The selection-change handler.  A null key, or the empty string (falsy
in the JavaScript truthiness test), is a no-op.  Otherwise selectedKey is
set and onChange notified; then the key is looked up in the localItems
snapshot by exact stringified-id match, and on success search is set to
the found name and onInputChange notified. -/
def handleSelectionChange (key : Option String) (s : SearchBarState) :
    SearchBarState × List Notif :=
  match key with
  | none => (s, [])
  | some k =>
    if k = "" then (s, [])
    else
      match s.localItems.find? (fun item => toString item.pokemon_species_id == k) with
      | some selectedPokemon =>
          ({ s with selectedKey := k, search := selectedPokemon.name },
           [Notif.onChange k, Notif.onInputChange selectedPokemon.name])
      | none => ({ s with selectedKey := k }, [Notif.onChange k])

/-- The free-text input handler: sets search and notifies onInputChange. -/
def handleInputChange (value : String) (s : SearchBarState) :
    SearchBarState × List Notif :=
  ({ s with search := value }, [Notif.onInputChange value])

/-- A rendered node under the listbox, abstracted to the attributes the
correction pass reads and writes: its accessibility role, its
aria-selected attribute and its class list. -/
structure DomNode where
  role : String
  ariaSelected : String
  classes : List String
deriving DecidableEq

/-- The per-option correction: aria-selected is forced to false and the
selected class, when present, is removed from the class list. -/
def correctOption (o : DomNode) : DomNode :=
  { o with ariaSelected := "false",
           classes := if o.classes.contains "selected"
                      then o.classes.filter (fun c => c != "selected")
                      else o.classes }

/-- The correction pass of the highlight corrector: every node under the
listbox whose role is option is corrected; other nodes are untouched. -/
def removeFirstItemSelection (nodes : List DomNode) : List DomNode :=
  nodes.map (fun n => if n.role == "option" then correctOption n else n)

/-- Shared bound: for 0 <= r < 1 the drawn index is strictly below the
catalog length. -/
theorem randomIndex_lt (r : ℚ) (n : Nat) (h0 : 0 ≤ r) (h1 : r < 1)
    (hn : 0 < n) : randomIndex r n < n := by
  unfold randomIndex
  have hnq : (0 : ℚ) < (n : ℚ) := by exact_mod_cast hn
  refine (Nat.floor_lt (mul_nonneg h0 hnq.le)).mpr ?_
  calc r * (n : ℚ) < 1 * (n : ℚ) := mul_lt_mul_of_pos_right h1 hnq
    _ = (n : ℚ) := one_mul _

/-- C4: handleSelectionChange with a null key, or with the empty key
(falsy in JavaScript), leaves the whole state unchanged and invokes no
callback. -/
theorem c4_null_or_empty_key_noop (s : SearchBarState) :
    handleSelectionChange none s = (s, []) ∧
    handleSelectionChange (some "") s = (s, []) := by
  constructor <;> simp [handleSelectionChange]

/-- C5: resetSearchBar always yields empty search text and empty selected
key, keeps the candidate snapshot, and invokes no callback. -/
theorem c5_reset_clears_without_callbacks (s : SearchBarState) :
    (resetSearchBar s).1.search = "" ∧
    (resetSearchBar s).1.selectedKey = "" ∧
    (resetSearchBar s).1.localItems = s.localItems ∧
    (resetSearchBar s).2 = [] := by
  refine ⟨rfl, rfl, rfl, rfl⟩

/-- C6: handleRandomPick with an absent or empty full catalog leaves the
state unchanged and invokes no callback. -/
theorem c6_empty_catalog_noop (r : ℚ) (data : Option (List PokemonName))
    (s : SearchBarState) :
    handleRandomPick r none data s = some (s, []) ∧
    handleRandomPick r (some []) data s = some (s, []) := by
  constructor <;> simp [handleRandomPick]

/-- C8: the two controlled-prop reconciliations are independent: syncing
the value prop overwrites only selectedKey (to the prop value, empty when
absent) and syncing the inputValue prop overwrites only search, each
leaving the other fields unchanged. -/
theorem c8_prop_sync_independent (v iv : Option String) (s : SearchBarState) :
    (syncValueProp v s).selectedKey = v.getD "" ∧
    (syncValueProp v s).search = s.search ∧
    (syncValueProp v s).localItems = s.localItems ∧
    (syncInputValueProp iv s).search = iv.getD "" ∧
    (syncInputValueProp iv s).selectedKey = s.selectedKey ∧
    (syncInputValueProp iv s).localItems = s.localItems := by
  refine ⟨rfl, rfl, rfl, rfl, rfl, rfl⟩

/-- C2: handleSelectionChange with a non-empty key that matches a record
in the localItems snapshot sets selectedKey to the key, sets search to the
matched record name, and notifies onChange then onInputChange. -/
theorem c2_select_found (k : String) (s : SearchBarState) (p : PokemonName)
    (hk : k ≠ "")
    (hp : s.localItems.find? (fun item => toString item.pokemon_species_id == k)
            = some p) :
    handleSelectionChange (some k) s =
      ({ s with selectedKey := k, search := p.name },
       [Notif.onChange k, Notif.onInputChange p.name]) := by
  simp [handleSelectionChange, hk, hp]

/-- Witness for C2 on a concrete state. -/
theorem c2_select_found_witness :
    handleSelectionChange (some "5")
        { search := "", selectedKey := "", localItems := [⟨5, "eevee"⟩] } =
      ({ search := "eevee", selectedKey := "5",
         localItems := [⟨5, "eevee"⟩] },
       [Notif.onChange "5", Notif.onInputChange "eevee"]) :=
  c2_select_found "5"
    { search := "", selectedKey := "", localItems := [⟨5, "eevee"⟩] }
    ⟨5, "eevee"⟩ (by decide) (by decide)

/-- C3: handleSelectionChange with a non-empty key absent from the
localItems snapshot still sets selectedKey but leaves search unchanged and
notifies only onChange. -/
theorem c3_select_absent (k : String) (s : SearchBarState)
    (hk : k ≠ "")
    (hnone : s.localItems.find? (fun item => toString item.pokemon_species_id == k)
               = none) :
    handleSelectionChange (some k) s =
      ({ s with selectedKey := k }, [Notif.onChange k]) := by
  simp [handleSelectionChange, hk, hnone]

/-- Witness for C3 on a concrete state with a stale snapshot. -/
theorem c3_select_absent_witness :
    handleSelectionChange (some "9")
        { search := "eev", selectedKey := "", localItems := [⟨5, "eevee"⟩] } =
      ({ search := "eev", selectedKey := "9",
         localItems := [⟨5, "eevee"⟩] },
       [Notif.onChange "9"]) :=
  c3_select_absent "9"
    { search := "eev", selectedKey := "", localItems := [⟨5, "eevee"⟩] }
    (by decide) (by decide)

/-- Filtering out the selected class leaves a class list that no longer
contains it. -/
theorem contains_filter_selected (l : List String) :
    (l.filter (fun c => c != "selected")).contains "selected" = false := by
  rw [Bool.eq_false_iff]
  intro hc
  rcases List.contains_iff_exists_mem_beq.mp hc with ⟨b, hb, hbeq⟩
  rcases List.mem_filter.mp hb with ⟨_, hbne⟩
  have hb' : b = "selected" := (beq_iff_eq.mp hbeq).symm
  subst hb'
  simp at hbne

/-- C9: after the correction pass, every node under the listbox with the
option role has aria-selected equal to false and no selected class. -/
theorem c9_no_option_remains_selected (nodes : List DomNode) (n : DomNode)
    (hn : n ∈ removeFirstItemSelection nodes) (hrole : n.role = "option") :
    n.ariaSelected = "false" ∧ n.classes.contains "selected" = false := by
  rcases List.mem_map.mp hn with ⟨m, _, hEq⟩
  by_cases hb : m.role = "option"
  · have hb' : (m.role == "option") = true := by simp [hb]
    rw [hb'] at hEq
    simp only [if_true] at hEq
    subst hEq
    refine ⟨rfl, ?_⟩
    show (correctOption m).classes.contains "selected" = false
    unfold correctOption
    by_cases hc : m.classes.contains "selected" = true
    · simp only [hc, if_true]
      exact contains_filter_selected m.classes
    · simp only [Bool.not_eq_true] at hc
      simp only [hc, if_false]
      exact hc
  · have hb' : (m.role == "option") = false := by simp [hb]
    rw [hb'] at hEq
    simp only [Bool.false_eq_true, if_false] at hEq
    subst hEq
    exact absurd hrole hb

/-- Witness for C9 on a concrete listbox with one auto-highlighted
option. -/
theorem c9_no_option_remains_selected_witness :
    ({ role := "option", ariaSelected := "false", classes := ["x"] }
        : DomNode).ariaSelected = "false" ∧
    ({ role := "option", ariaSelected := "false", classes := ["x"] }
        : DomNode).classes.contains "selected" = false :=
  c9_no_option_remains_selected
    [{ role := "option", ariaSelected := "true", classes := ["selected", "x"] }]
    { role := "option", ariaSelected := "false", classes := ["x"] }
    (by decide) rfl

/-- C10: for any Math.random() outcome r with 0 <= r < 1 and a non-empty
catalog, the drawn index is strictly inside the bounds, and consequently
handleRandomPick never performs the out-of-bounds read it would crash on
(its result is always some). -/
theorem c10_random_index_in_bounds (r : ℚ) (ids : List Nat)
    (data : Option (List PokemonName)) (s : SearchBarState)
    (h0 : 0 ≤ r) (h1 : r < 1) :
    (0 < ids.length → randomIndex r ids.length < ids.length) ∧
    (handleRandomPick r (some ids) data s).isSome := by
  refine ⟨fun hn => randomIndex_lt r ids.length h0 h1 hn, ?_⟩
  simp only [handleRandomPick]
  by_cases hn : 0 < ids.length
  · have hidx := randomIndex_lt r ids.length h0 h1 hn
    rw [if_pos hn, List.getElem?_eq_getElem hidx]
    cases data with
    | none => rfl
    | some d =>
        cases hfind : d.find?
            (fun item => item.pokemon_species_id == ids[randomIndex r ids.length]) with
        | none => simp [hfind]
        | some item => simp [hfind]
  · rw [if_neg hn]
    rfl

/-- Witness for C10 at a concrete random outcome and catalog. -/
theorem c10_random_index_in_bounds_witness :
    (0 < ([1, 4, 7] : List Nat).length →
       randomIndex (2 / 3) ([1, 4, 7] : List Nat).length
         < ([1, 4, 7] : List Nat).length) ∧
    (handleRandomPick (2 / 3) (some [1, 4, 7]) none
        { search := "", selectedKey := "", localItems := [] }).isSome :=
  c10_random_index_in_bounds (2 / 3) [1, 4, 7] none
    { search := "", selectedKey := "", localItems := [] }
    (by norm_num) (by norm_num)

/-- C7: handleRandomPick resolves the display name of the drawn id against
the search-filtered data: when the drawn id is found there, search is set
to the found name and onInputChange is notified after onChange; when it is
absent, search is untouched and only onChange is notified. -/
theorem c7_name_resolution_uses_filtered_data (r : ℚ) (ids : List Nat)
    (d : List PokemonName) (s : SearchBarState) (pid : Nat)
    (hn : 0 < ids.length)
    (hget : ids[randomIndex r ids.length]? = some pid) :
    (∀ item, d.find? (fun it => it.pokemon_species_id == pid) = some item →
       handleRandomPick r (some ids) (some d) s =
         some ({ s with search := item.name },
               [Notif.onChange (toString pid), Notif.onInputChange item.name])) ∧
    (d.find? (fun it => it.pokemon_species_id == pid) = none →
       handleRandomPick r (some ids) (some d) s =
         some (s, [Notif.onChange (toString pid)])) := by
  constructor
  · intro item hfind
    simp only [handleRandomPick]
    rw [if_pos hn, hget]
    simp [hfind]
  · intro hfind
    simp only [handleRandomPick]
    rw [if_pos hn, hget]
    simp [hfind]

/-- Witness for C7: the drawn id 5 is found in the filtered data, so the
search text becomes the resolved name. -/
theorem c7_name_resolution_witness :
    handleRandomPick 0 (some [5]) (some [⟨5, "eevee"⟩])
        { search := "", selectedKey := "", localItems := [] } =
      some ({ search := "eevee", selectedKey := "", localItems := [] },
            [Notif.onChange "5", Notif.onInputChange "eevee"]) :=
  (c7_name_resolution_uses_filtered_data 0 [5] [⟨5, "eevee"⟩]
      { search := "", selectedKey := "", localItems := [] } 5
      (by decide) (by simp [randomIndex])).1 ⟨5, "eevee"⟩ (by decide)

/-- C1 is false as stated: on the concrete catalog [1, 4, 7] with random
outcome 0, handleRandomPick notifies onChange with the drawn id but leaves
selectedKey at its prior value (here empty), which is not the string of
any catalog id. -/
theorem c1_counterexample_selected_key_not_set :
    handleRandomPick 0 (some [1, 4, 7]) none
        { search := "x", selectedKey := "", localItems := [] } =
      some ({ search := "x", selectedKey := "", localItems := [] },
            [Notif.onChange "1"]) ∧
    ∀ pid ∈ ([1, 4, 7] : List Nat), toString pid ≠ "" := by
  refine ⟨?_, by decide⟩
  have h : randomIndex 0 3 = 0 := by
    simp [randomIndex]
  simp [handleRandomPick, h]
  all_goals decide

/-- C1 (amended): on a non-empty full catalog, handleRandomPick notifies
the external onChange collaborator with the string of an identifier drawn
from the catalog, but leaves selectedKey (and the candidate snapshot)
unchanged; selectedKey is only updated through onSelect or the controlled
value prop. -/
theorem c1_amended_random_pick_notifies (r : ℚ) (ids : List Nat)
    (data : Option (List PokemonName)) (s : SearchBarState)
    (h0 : 0 ≤ r) (h1 : r < 1) (hne : ids ≠ []) :
    ∃ pid ∈ ids, ∃ st notifs,
      handleRandomPick r (some ids) data s = some (st, notifs) ∧
      st.selectedKey = s.selectedKey ∧
      st.localItems = s.localItems ∧
      notifs.head? = some (Notif.onChange (toString pid)) := by
  have hn : 0 < ids.length := List.length_pos.mpr hne
  have hidx := randomIndex_lt r ids.length h0 h1 hn
  refine ⟨ids[randomIndex r ids.length], List.getElem_mem hidx, ?_⟩
  simp only [handleRandomPick]
  rw [if_pos hn, List.getElem?_eq_getElem hidx]
  cases data with
  | none => exact ⟨s, _, rfl, rfl, rfl, rfl⟩
  | some d =>
      cases hfind : d.find?
          (fun item => item.pokemon_species_id == ids[randomIndex r ids.length]) with
      | none =>
          simp only [hfind]
          exact ⟨s, _, rfl, rfl, rfl, rfl⟩
      | some item =>
          simp only [hfind]
          exact ⟨_, _, rfl, rfl, rfl, rfl⟩

/-- Witness for the amended C1 on the catalog [1, 4, 7]. -/
theorem c1_amended_random_pick_notifies_witness :
    ((0 : ℚ) ≤ 0 ∧ (0 : ℚ) < 1 ∧ ([1, 4, 7] : List Nat) ≠ []) ∧
    (∃ pid ∈ ([1, 4, 7] : List Nat), ∃ st notifs,
      handleRandomPick 0 (some [1, 4, 7]) none
          { search := "x", selectedKey := "", localItems := [] } =
        some (st, notifs) ∧
      st.selectedKey = "" ∧
      st.localItems = [] ∧
      notifs.head? = some (Notif.onChange (toString pid))) :=
  ⟨⟨le_refl 0, by norm_num, by decide⟩,
   c1_amended_random_pick_notifies 0 [1, 4, 7] none
     { search := "x", selectedKey := "", localItems := [] }
     (le_refl 0) (by norm_num) (by decide)⟩
